import Mathlib

/-!
Verification of the `causal_curve` CDRC module (`src/causal_curve/cdrc.py`).

The embedding models the Python class `CDRC` as a state machine over rational
numbers.  The external numerical solvers (statsmodels GLM fits and the pygam
`LinearGAM`) are modelled as black boxes supplied through environments
(`GpsEnv`, `GamFitter`); everything the Python file itself computes
(validation, grid construction, model selection, state updates, the CDRC
table) is translated directly from the source.
-/

set_option maxHeartbeats 1000000
set_option maxRecDepth 100000

deriving instance DecidableEq for Except

namespace CausalCurve

/-- Model of a Python runtime value, as far as the CDRC validation code inspects
values: `None`, `bool`, `int`, `float` (as an exact rational) and `str`. -/
inductive PyVal where
  | vNone
  | vBool (b : Bool)
  | vInt (n : ℤ)
  | vFloat (q : ℚ)
  | vStr (s : String)
deriving DecidableEq, Repr

/-- Python `isinstance(v, bool)`. -/
def PyVal.isInstBool : PyVal → Bool
  | .vBool _ => true
  | _ => false

/-- Python `isinstance(v, int)`.  `bool` is a subclass of `int` in Python, so
booleans pass this check. -/
def PyVal.isInstInt : PyVal → Bool
  | .vInt _ => true
  | .vBool _ => true
  | _ => false

/-- Python `isinstance(v, float)` (booleans and ints are not floats). -/
def PyVal.isInstFloat : PyVal → Bool
  | .vFloat _ => true
  | _ => false

/-- Python `isinstance(v, str)`. -/
def PyVal.isInstStr : PyVal → Bool
  | .vStr _ => true
  | _ => false

/-- Python `v is None`. -/
def PyVal.isNone : PyVal → Bool
  | .vNone => true
  | _ => false

/-- The numeric value of an int-like Python value (`True == 1`, `False == 0`). -/
def PyVal.intVal : PyVal → ℤ
  | .vInt n => n
  | .vBool b => if b then 1 else 0
  | _ => 0

/-- The numeric value of a float Python value. -/
def PyVal.floatVal : PyVal → ℚ
  | .vFloat q => q
  | _ => 0

/-- The string held by a Python string value. -/
def PyVal.strVal : PyVal → String
  | .vStr s => s
  | _ => ""

/-- A raised Python exception, as far as the CDRC code distinguishes them:
a `TypeError` or a `ValueError`, with the start of its message. -/
inductive PyError where
  | typeError (msg : String)
  | valueError (msg : String)
deriving DecidableEq, Repr

/-- The seven constructor arguments of `CDRC.__init__`, still as raw Python
values (validation has not run yet). -/
structure InitParams where
  gps_family : PyVal
  treatment_grid_num : PyVal
  spline_order : PyVal
  n_splines : PyVal
  lambda_ : PyVal
  max_iter : PyVal
  verbose : PyVal
deriving DecidableEq, Repr

/-- `CDRC._validate_init_params`: the checks run in source order and the first
failing check raises (an if/else chain is equivalent to the source's sequence of
`if ...: raise` statements, since a raise aborts the method). -/
def _validate_init_params (p : InitParams) : Except PyError Unit :=
  -- Checks for gps_family param
  if !(p.gps_family.isInstStr || p.gps_family.isNone) then
    .error (.typeError "gps_family parameter must be a string or None")
  else if p.gps_family.isInstStr &&
      !(["normal", "lognormal", "gamma"].contains p.gps_family.strVal) then
    .error (.valueError "gps_family parameter must take on values of 'normal', 'lognormal', or 'gamma'")
  -- Checks for treatment_grid_num
  else if !(p.treatment_grid_num.isInstInt) then
    .error (.typeError "treatment_grid_num parameter must be an integer")
  else if p.treatment_grid_num.isInstInt && decide (p.treatment_grid_num.intVal < 10) then
    .error (.valueError "treatment_grid_num parameter should be >= 10 so your final curve has enough resolution")
  else if p.treatment_grid_num.isInstInt && decide (p.treatment_grid_num.intVal ≥ 1000) then
    .error (.valueError "treatment_grid_num parameter is too high!")
  -- Checks for spline_order
  else if !(p.spline_order.isInstInt) then
    .error (.typeError "spline_order parameter must be an integer")
  else if p.spline_order.isInstInt && decide (p.spline_order.intVal < 1) then
    .error (.valueError "spline_order parameter should be >= 1")
  else if p.spline_order.isInstInt && decide (p.spline_order.intVal ≥ 30) then
    .error (.valueError "spline_order parameter is too high!")
  -- Checks for n_splines
  else if !(p.n_splines.isInstInt) then
    .error (.typeError "n_splines parameter must be an integer")
  else if p.n_splines.isInstInt && decide (p.n_splines.intVal < 2) then
    .error (.valueError "n_splines parameter should be >= 2")
  else if p.n_splines.isInstInt && decide (p.n_splines.intVal ≥ 100) then
    .error (.valueError "n_splines parameter is too high!")
  -- Checks for lambda_
  else if !(p.lambda_.isInstFloat) then
    .error (.typeError "lambda_ parameter must be an float")
  else if p.lambda_.isInstFloat && decide (p.lambda_.floatVal ≤ 0) then
    .error (.valueError "lambda_ parameter should be >= 2")
  else if p.lambda_.isInstFloat && decide (p.lambda_.floatVal ≥ 1000) then
    .error (.valueError "lambda_ parameter is too high!")
  -- Checks for max_iter
  else if !(p.max_iter.isInstInt) then
    .error (.typeError "max_iter parameter must be an int")
  else if p.max_iter.isInstInt && decide (p.max_iter.intVal ≤ 10) then
    .error (.valueError "max_iter parameter is too low! Results won't be reliable!")
  else if p.max_iter.isInstInt && decide (p.max_iter.intVal ≥ 1000000) then
    .error (.valueError "max_iter parameter is unnecessarily high!")
  -- Checks for verbose
  else if !(p.verbose.isInstBool) then
    .error (.typeError "verbose parameter must be a boolean type")
  else .ok ()

/-- The dtype of a pandas Series / DataFrame column, as far as the fit
validation inspects it: float, int, or anything else (object etc.). -/
inductive Dtype where
  | float
  | int
  | obj
deriving DecidableEq, Repr

/-- A pandas Series: its dtype and its values (numeric contents as rationals;
for a non-numeric column the list is just a placeholder). -/
structure Series where
  dtype : Dtype
  values : List ℚ
deriving DecidableEq, Repr

/-- `pandas.api.types.is_float_dtype`. -/
def is_float_dtype (s : Series) : Bool := s.dtype == .float

/-- `pandas.api.types.is_numeric_dtype` (int or float columns). -/
def is_numeric_dtype (s : Series) : Bool := s.dtype == .float || s.dtype == .int

/-- `CDRC._validate_fit_data`: T must be float dtype, every column of X numeric,
y float dtype; the source checks in this order and raises at the first failure
(the X loop raises at the first non-numeric column). -/
def _validate_fit_data (T : Series) (X : List Series) (y : Series) : Except PyError Unit :=
  -- Checks for T column
  if !(is_float_dtype T) then
    .error (.typeError "Treatment data must be of type float")
  -- Make sure all X columns are float or int
  else if (X.find? (fun column => !(is_numeric_dtype column))).isSome then
    .error (.typeError "All covariate (X) columns must be int or float type (i.e. must be numeric)")
  -- Checks for Y column
  else if !(is_float_dtype y) then
    .error (.typeError "Outcome data must be of type float")
  else .ok ()

/-- Round a rational to the nearest integer, halves to even — the rounding mode
of `np.round`. -/
def roundHalfEven (q : ℚ) : ℤ :=
  let a := ⌊q⌋
  if q - a < 1/2 then a
  else if q - a > 1/2 then a + 1
  else if a % 2 = 0 then a else a + 1

/-- `np.round(x, 3)`. -/
def np_round3 (q : ℚ) : ℚ := (roundHalfEven (q * 1000) : ℚ) / 1000

/-- numpy `.mean()` of a vector: sum divided by length (the CDRC code only takes
means of nonempty per-observation columns). -/
def npMean (l : List ℚ) : ℚ := l.sum / l.length

/-- `np.linspace(start = 0, stop = 1, num)`: `num` evenly spaced points from 0
to 1, endpoints included (the CDRC code always calls it with num ≥ 10). -/
def np_linspace01 (num : ℕ) : List ℚ :=
  (List.range num).map (fun k : ℕ => (k : ℚ) / ((num : ℚ) - 1))

/-- `np.quantile(ts, p)` at a single probability, with the default linear
interpolation: with `s` the sorted data, `n` its length and `h = p * (n - 1)`,
the result is `s[⌊h⌋] + (h - ⌊h⌋) * (s[⌊h⌋ + 1] - s[⌊h⌋])` (at `p = 1` the
interpolation weight is 0 and the result is `s[n-1]`).  `qinterp` is the
interpolation applied to the already-sorted data. -/
def qinterp (s : List ℚ) (p : ℚ) : ℚ :=
  let h : ℚ := p * ((s.length : ℚ) - 1)
  let i : ℕ := (⌊h⌋).toNat
  let lo := s.getD i 0
  let hi := s.getD (i + 1) lo
  lo + (h - (i : ℚ)) * (hi - lo)

/-- `np.quantile(ts, p)` at a single probability: sort the data, then
interpolate.  numpy's internal sort is modelled by insertion sort — any sorting
algorithm yields the same list. -/
def np_quantile1 (ts : List ℚ) (p : ℚ) : ℚ :=
  qinterp (List.insertionSort (fun a b => a ≤ b) ts) p

/-- `CDRC._grid_values`:
`np.quantile(T, q = np.linspace(start = 0, stop = 1, num = treatment_grid_num))`. -/
def _grid_values (T : List ℚ) (treatment_grid_num : ℕ) : List ℚ :=
  (np_linspace01 treatment_grid_num).map (np_quantile1 T)

/-- A fitted GPS density function — the closure returned by the
`_create_*_gps_function` methods.  It is used in two ways by the source: applied
to a scalar treatment value (broadcasting against the per-observation fitted
parameters, yielding one density per observation), and applied to the observed
treatment array (elementwise, matched by position). -/
structure GpsFun where
  atScalar : ℚ → List ℚ
  atArray : List ℚ → List ℚ

/-- Black-box statsmodels GLM fits: for each family, given the fit data (T, X),
the (gps_function, deviance) pair produced by `_create_normal_gps_function`,
`_create_lognormal_gps_function` and `_create_gamma_gps_function`. -/
structure GpsEnv where
  createNormal : Series → List Series → GpsFun × ℚ
  createLognormal : Series → List Series → GpsFun × ℚ
  createGamma : Series → List Series → GpsFun × ℚ

/-- Python's `min(d, key=d.get)` over a nonempty association list, given as its
head and tail: returns the (key, value) entry with minimal value, the first such
entry winning ties (dict iteration order = insertion order). -/
def pyMinByVal (first : String × ℚ) : List (String × ℚ) → String × ℚ
  | [] => first
  | kv :: rest => if kv.2 < first.2 then pyMinByVal kv rest else pyMinByVal first rest

/-- `CDRC._find_best_gps_model`: builds the dict
`{normal_gps_model, lognormal_gps_model, gamma_gps_model}` by calling all three
fitters, compares the three deviances with `min(..., key=....get)` and returns
the winning dict key together with that model's gps_function and deviance. -/
def _find_best_gps_model (env : GpsEnv) (T : Series) (X : List Series) :
    String × GpsFun × ℚ :=
  let models_to_try : List (String × (GpsFun × ℚ)) :=
    [("normal_gps_model", env.createNormal T X),
     ("lognormal_gps_model", env.createLognormal T X),
     ("gamma_gps_model", env.createGamma T X)]
  let model_comparison : List (String × ℚ) := models_to_try.map (fun kv => (kv.1, kv.2.2))
  let best_model : String :=
    match model_comparison with
    | [] => "normal_gps_model"
    | kv :: rest => (pyMinByVal kv rest).1
  let best := (models_to_try.lookup best_model).getD
    (⟨fun _ => [], fun _ => []⟩, 0)
  (best_model, best.1, best.2)

/-- Black-box model of a fitted pygam `LinearGAM`: point predictions and
prediction intervals of a given width for a list of (treatment, gps) query
rows, plus the captured text summary. -/
structure GamModel where
  predict : List (ℚ × ℚ) → List ℚ
  prediction_intervals : List (ℚ × ℚ) → ℚ → List (ℚ × ℚ)
  summaryStr : String

/-- Black-box model of the pygam
`LinearGAM(s(0, n_splines, spline_order) + s(1, n_splines, spline_order),
max_iter).fit(X, y)` call: arguments are n_splines, spline_order, max_iter and
the data (X rows, y). -/
structure GamFitter where
  fitGam : ℕ → ℕ → ℕ → List (ℚ × ℚ) → List ℚ → GamModel

/-- A validated GPS family choice. -/
inductive GpsFamily where
  | normal
  | lognormal
  | gamma
deriving DecidableEq, Repr

/-- The family's name string as the user passes it to the constructor. -/
def GpsFamily.name : GpsFamily → String
  | .normal => "normal"
  | .lognormal => "lognormal"
  | .gamma => "gamma"

/-- The validated constructor configuration of a CDRC instance — the typed
counterpart of `InitParams` once `_validate_init_params` has passed. -/
structure Config where
  gps_family : Option GpsFamily
  treatment_grid_num : ℕ
  spline_order : ℕ
  n_splines : ℕ
  lambda_ : ℚ
  max_iter : ℕ
  verbose : Bool

/-- The instance state of a CDRC object.  Fields that the Python methods create
by attribute assignment are `Option`s (`none` = attribute not yet set).  The
GPS-at-grid matrix and the CDRC predictions tensor are represented grid-major —
entry `i` is the column for grid value `i`, a list over observations — matching
the column-by-column fill and read of the numpy arrays in the source. -/
structure CDRCState where
  cfg : Config
  T : Option Series := none
  X : Option (List Series) := none
  y : Option Series := none
  grid_values : Option (List ℚ) := none
  best_gps_family : Option (Option String) := none
  gps_function : Option GpsFun := none
  gps_deviance : Option ℚ := none
  gps : Option (List ℚ) := none
  gam_results : Option GamModel := none
  gam_summary_str : Option String := none
  gps_at_grid : Option (List (List ℚ)) := none
  cdrc_preds : Option (List (List (ℚ × ℚ × ℚ))) := none

/-- The state of a freshly constructed CDRC instance: the constructor stores the
validated parameters and creates no fit artifact. -/
def initCDRC (cfg : Config) : CDRCState := { cfg := cfg }

/-- `CDRC._fit_gam`:
`LinearGAM(s(0, n_splines=self.n_splines, spline_order=self.spline_order)
+ s(1, n_splines=self.n_splines, spline_order=self.spline_order),
max_iter=500).fit(column_stack(T, gps), y)`.
The iteration cap is the hardcoded literal 500; the constructor's `max_iter`
(and `lambda_`) are not passed. -/
def _fit_gam (F : GamFitter) (cfg : Config) (T gps y : List ℚ) : GamModel :=
  F.fitGam cfg.n_splines cfg.spline_order 500 (T.zip gps) y

/-- `CDRC._gps_values_at_grid`: for each grid index, the GPS function evaluated
at that scalar grid value against all observations (one column per grid
value). -/
def _gps_values_at_grid (gps_function : GpsFun) (grid_values : List ℚ)
    (treatment_grid_num : ℕ) : List (List ℚ) :=
  (List.range treatment_grid_num).map
    (fun i => gps_function.atScalar (grid_values.getD i 0))

/-- `CDRC.fit`: assigns `self.T`, `self.X`, `self.y`, validates them, builds the
treatment grid, selects / fits the GPS model, stores the GPS values, fits the
outcome GAM (capturing its text summary) and stores the GPS-at-grid matrix.
Returns the Python outcome (`None` or the raised error) with the post-call
state. -/
def fit (env : GpsEnv) (F : GamFitter) (st : CDRCState)
    (T : Series) (X : List Series) (y : Series) :
    Except PyError Unit × CDRCState :=
  let st1 := { st with T := some T, X := some X, y := some y }
  match _validate_fit_data T X y with
  | .error e => (.error e, st1)
  | .ok _ =>
    let grid := _grid_values T.values st1.cfg.treatment_grid_num
    let st2 := { st1 with grid_values := some grid }
    let sel : String × GpsFun × ℚ :=
      match st2.cfg.gps_family with
      | none => _find_best_gps_model env T X
      | some GpsFamily.normal =>
          ("normal", (env.createNormal T X).1, (env.createNormal T X).2)
      | some GpsFamily.lognormal =>
          ("lognormal", (env.createLognormal T X).1, (env.createLognormal T X).2)
      | some GpsFamily.gamma =>
          ("gamma", (env.createGamma T X).1, (env.createGamma T X).2)
    let st3 := { st2 with best_gps_family := some (some sel.1),
                          gps_function := some sel.2.1,
                          gps_deviance := some sel.2.2 }
    let gpsVals := sel.2.1.atArray T.values
    let st4 := { st3 with gps := some gpsVals }
    let gam := _fit_gam F st4.cfg T.values gpsVals y.values
    let st5 := { st4 with gam_results := some gam,
                          gam_summary_str := some gam.summaryStr }
    let gag := _gps_values_at_grid sel.2.1 grid st5.cfg.treatment_grid_num
    (.ok (), { st5 with gps_at_grid := some gag })

/-- `CDRC._validate_calculate_CDRC_params`. -/
def _validate_calculate_CDRC_params (ci : PyVal) : Except PyError Unit :=
  if !(ci.isInstFloat) then
    .error (.typeError "ci parameter must be an float")
  else if ci.isInstFloat && (decide (ci.floatVal ≤ 0) || decide (ci.floatVal ≥ 1)) then
    .error (.valueError "ci parameter should be between (0, 1)")
  else .ok ()

/-- The fitted GAM read off the instance state (attribute access
`self.gam_results`; the default is never reached on a fitted instance). -/
def CDRCState.gamOrDefault (st : CDRCState) : GamModel :=
  st.gam_results.getD ⟨fun _ => [], fun _ _ => [], ""⟩

/-- `CDRC._cdrc_predictions`: for each grid index `i`, pair the grid value
(repeated once per observation) with column `i` of the GPS-at-grid matrix,
query the GAM for point predictions and a `ci`-width prediction interval, and
store (point, lower, upper) per observation; finally `np.round(..., 3)` the
whole tensor.  Grid-major representation of the
(n_observations, treatment_grid_num, 3) numpy array. -/
def _cdrc_predictions (st : CDRCState) (ci : ℚ) : List (List (ℚ × ℚ × ℚ)) :=
  let n_obs : ℕ := (st.T.map (fun t => t.values.length)).getD 0
  let gam := st.gamOrDefault
  (List.range st.cfg.treatment_grid_num).map (fun i =>
    let temp_T := List.replicate n_obs ((st.grid_values.getD []).getD i 0)
    let temp_gps := (st.gps_at_grid.getD []).getD i []
    let rows := temp_T.zip temp_gps
    let temp_cdrc_preds := gam.predict rows
    let temp_cdrc_interval := gam.prediction_intervals rows ci
    (temp_cdrc_preds.zip temp_cdrc_interval).map
      (fun pr => (np_round3 pr.1, np_round3 pr.2.1, np_round3 pr.2.2)))

/-- `CDRC.calculate_CDRC`: validates `ci`, assigns the predictions tensor to
`self._cdrc_preds`, then for each grid index builds the row
(grid value, mean of points, mean of lower bounds, mean of upper bounds).
Returns the Python outcome (the table, or the raised error) with the post-call
state. -/
def calculate_CDRC (st : CDRCState) (ci : PyVal) :
    Except PyError (List (ℚ × ℚ × ℚ × ℚ)) × CDRCState :=
  match _validate_calculate_CDRC_params ci with
  | .error e => (.error e, st)
  | .ok _ =>
    let preds := _cdrc_predictions st ci.floatVal
    let st1 := { st with cdrc_preds := some preds }
    let results := (List.range st1.cfg.treatment_grid_num).map (fun i =>
      let temp_grid_value := (st1.grid_values.getD []).getD i 0
      let col := preds.getD i []
      (temp_grid_value,
       npMean (col.map (fun e => e.1)),
       npMean (col.map (fun e => e.2.1)),
       npMean (col.map (fun e => e.2.2))))
    (.ok results, st1)

/-- The constructor's default arguments: `gps_family=None`,
`treatment_grid_num=100`, `spline_order=3`, `n_splines=30`, `lambda_=0.5`,
`max_iter=100`, `verbose=False`. -/
def defaultInitParams : InitParams :=
  ⟨.vNone, .vInt 100, .vInt 3, .vInt 30, .vFloat (1/2), .vInt 100, .vBool false⟩

/-- A concrete GAM used to exercise the embedding: the point prediction is the
treatment value of the query row and the prediction interval is
[treatment - 1, treatment + 2]. -/
def cGam : GamModel :=
  ⟨fun rows => rows.map (fun r => r.1),
   fun rows _ => rows.map (fun r => (r.1 - 1, r.1 + 2)),
   "gam summary"⟩

/-- A concrete GAM fitter returning `cGam` for any data. -/
def cFitter : GamFitter := ⟨fun _ _ _ _ _ => cGam⟩

/-- A concrete valid configuration: no GPS family, `treatment_grid_num = 10`,
constructor defaults otherwise. -/
def cCfg : Config := ⟨none, 10, 3, 30, 1/2, 100, false⟩

/-- Same configuration as `cCfg` except for `max_iter`. -/
def cCfg2 : Config := ⟨none, 10, 3, 30, 1/2, 1000, false⟩

/-- Concrete treatment data: three float observations. -/
def cT : Series := ⟨.float, [2, 1, 3]⟩

/-- Concrete covariates: one numeric column. -/
def cX : List Series := [⟨.float, [1, 1, 1]⟩]

/-- Concrete outcome data. -/
def cY : Series := ⟨.float, [5, 4, 6]⟩

/-- An integer-dtype treatment Series (fails `_validate_fit_data`). -/
def cTbad : Series := ⟨.int, [2, 1, 3]⟩

/-- A concrete GLM environment: the three families fit with deviances
normal = 120, lognormal = 95, gamma = 110 (the deviance triple used as the
selection example in the spec), each with a constant density function. -/
def cEnv : GpsEnv :=
  ⟨fun _ _ => (⟨fun _ => [1, 1, 1], fun l => l.map (fun _ => 1)⟩, 120),
   fun _ _ => (⟨fun _ => [1, 1, 1], fun l => l.map (fun _ => 1)⟩, 95),
   fun _ _ => (⟨fun _ => [1, 1, 1], fun l => l.map (fun _ => 1)⟩, 110)⟩

/-- The instance state after a successful concrete `fit` call. -/
def cFitted : CDRCState := (fit cEnv cFitter (initCDRC cCfg) cT cX cY).2

/-- Helper: `_validate_calculate_CDRC_params` accepts every float strictly
inside (0, 1). -/
theorem validate_ci_ok {q : ℚ} (h0 : 0 < q) (h1 : q < 1) :
    _validate_calculate_CDRC_params (.vFloat q) = .ok () := by
  have e0 : decide ((PyVal.vFloat q).floatVal ≤ 0) = false :=
    decide_eq_false (by simpa [PyVal.floatVal] using h0.not_le)
  have e1 : decide ((PyVal.vFloat q).floatVal ≥ 1) = false :=
    decide_eq_false (by simpa [PyVal.floatVal] using h1.not_le)
  simp [_validate_calculate_CDRC_params, PyVal.isInstFloat, e0, e1]

/-- Helper: the full reduction of a `calculate_CDRC` call with a valid float
ci — the returned table and the post-call state. -/
theorem calculate_CDRC_ok (st : CDRCState) {q : ℚ} (h0 : 0 < q) (h1 : q < 1) :
    calculate_CDRC st (.vFloat q) =
      (.ok ((List.range st.cfg.treatment_grid_num).map (fun i =>
        ((st.grid_values.getD []).getD i 0,
         npMean (((_cdrc_predictions st q).getD i []).map (fun e => e.1)),
         npMean (((_cdrc_predictions st q).getD i []).map (fun e => e.2.1)),
         npMean (((_cdrc_predictions st q).getD i []).map (fun e => e.2.2))))),
       { st with cdrc_preds := some (_cdrc_predictions st q) }) := by
  simp [calculate_CDRC, validate_ci_ok h0 h1, PyVal.floatVal]

/-- C10: a boolean supplied for any of the integer-typed constructor parameters
(treatment_grid_num, spline_order, n_splines, max_iter) passes the
`isinstance(..., int)` type check, because bool is a subtype of int in Python;
with the other parameters at their defaults, such a value is therefore rejected
— when it is rejected at all — by the range check with a ValueError, never with
a TypeError.  In particular treatment_grid_num=True hits the below-10 range
error, and spline_order=True (== 1) is accepted outright. -/
theorem validate_init_bool_for_int_params :
    ∀ b : Bool,
      PyVal.isInstInt (.vBool b) = true ∧
      _validate_init_params { defaultInitParams with treatment_grid_num := .vBool b } =
        .error (.valueError "treatment_grid_num parameter should be >= 10 so your final curve has enough resolution") ∧
      _validate_init_params { defaultInitParams with spline_order := .vBool b } =
        (if b then .ok () else .error (.valueError "spline_order parameter should be >= 1")) ∧
      _validate_init_params { defaultInitParams with n_splines := .vBool b } =
        .error (.valueError "n_splines parameter should be >= 2") ∧
      _validate_init_params { defaultInitParams with max_iter := .vBool b } =
        .error (.valueError "max_iter parameter is too low! Results won't be reliable!") := by
  intro b
  cases b <;> with_unfolding_all decide

/-- C7: `calculate_CDRC` raises a TypeError for every non-float ci and a
ValueError for every float ci with ci ≤ 0 or ci ≥ 1, in both cases before any
predictions are computed and with the instance state unchanged; for every float
ci strictly inside (0, 1) the parameter validation passes and a table is
returned. -/
theorem calculate_CDRC_ci_validation (st : CDRCState) (ci : PyVal) :
    (ci.isInstFloat = false →
      calculate_CDRC st ci = (.error (.typeError "ci parameter must be an float"), st)) ∧
    (∀ q : ℚ, ci = .vFloat q → (q ≤ 0 ∨ 1 ≤ q) →
      calculate_CDRC st ci = (.error (.valueError "ci parameter should be between (0, 1)"), st)) ∧
    (∀ q : ℚ, ci = .vFloat q → 0 < q → q < 1 →
      _validate_calculate_CDRC_params ci = .ok () ∧
      ∃ table, (calculate_CDRC st ci).1 = .ok table) := by
  refine ⟨?_, ?_, ?_⟩
  · intro h
    simp [calculate_CDRC, _validate_calculate_CDRC_params, h]
  · rintro q rfl h
    have e : (decide ((PyVal.vFloat q).floatVal ≤ 0) ||
        decide ((PyVal.vFloat q).floatVal ≥ 1)) = true := by
      rcases h with h | h
      · simp [PyVal.floatVal, h]
      · simp [PyVal.floatVal, ge_iff_le, h]
    simp [calculate_CDRC, _validate_calculate_CDRC_params, PyVal.isInstFloat, e]
  · rintro q rfl h0 h1
    exact ⟨validate_ci_ok h0 h1, _, by rw [calculate_CDRC_ok st h0 h1]⟩

/-- C7 witness: the three branches at concrete inputs, on the concretely
fitted state. -/
theorem calculate_CDRC_ci_validation_w :
    calculate_CDRC cFitted (.vStr "x") =
      (.error (.typeError "ci parameter must be an float"), cFitted) ∧
    calculate_CDRC cFitted (.vFloat 2) =
      (.error (.valueError "ci parameter should be between (0, 1)"), cFitted) ∧
    (∃ table, (calculate_CDRC cFitted (.vFloat (1/2))).1 = .ok table) :=
  ⟨(calculate_CDRC_ci_validation cFitted (.vStr "x")).1 (by decide),
   (calculate_CDRC_ci_validation cFitted (.vFloat 2)).2.1 2 rfl
     (by right; norm_num),
   ((calculate_CDRC_ci_validation cFitted (.vFloat (1/2))).2.2 (1/2) rfl
     (by norm_num) (by norm_num)).2⟩

/-- C5 (amended): the CDRC predictions tensor is derived during the
`calculate_CDRC` call and assigned to the instance attribute `_cdrc_preds`,
which persists after the call returns; no other instance field is touched. -/
theorem calculate_CDRC_persists_preds (st : CDRCState) (q : ℚ)
    (h0 : 0 < q) (h1 : q < 1) :
    (calculate_CDRC st (.vFloat q)).2 =
      { st with cdrc_preds := some (_cdrc_predictions st q) } := by
  rw [calculate_CDRC_ok st h0 h1]

/-- C5 witness: the amended statement at the concrete fitted state with
ci = 0.95. -/
theorem calculate_CDRC_persists_preds_w :
    (calculate_CDRC cFitted (.vFloat (95/100))).2 =
      { cFitted with cdrc_preds := some (_cdrc_predictions cFitted (95/100)) } :=
  calculate_CDRC_persists_preds cFitted (95/100) (by norm_num) (by norm_num)

/-- C5 counterexample: the claim "not persisted as instance state after the
call returns" is false — on the concretely fitted model, whose stored tensor is
absent, a `calculate_CDRC` call leaves the tensor stored in the instance
state. -/
theorem calculate_CDRC_preds_persist_cex :
    cFitted.cdrc_preds = none ∧
    (calculate_CDRC cFitted (.vFloat (95/100))).2.cdrc_preds ≠ none := by
  with_unfolding_all decide

/-- C9: calling `calculate_CDRC` twice with the same valid ci, the second call
running on the state left behind by the first, returns the same table both
times. -/
theorem calculate_CDRC_roundtrip (st : CDRCState) (q : ℚ)
    (h0 : 0 < q) (h1 : q < 1) :
    ∃ table, (calculate_CDRC st (.vFloat q)).1 = .ok table ∧
      (calculate_CDRC ((calculate_CDRC st (.vFloat q)).2) (.vFloat q)).1 = .ok table := by
  refine ⟨_, by rw [calculate_CDRC_ok st h0 h1], ?_⟩
  rw [calculate_CDRC_ok st h0 h1]
  rw [calculate_CDRC_ok _ h0 h1]
  rfl

/-- C9 witness: the round trip at the concrete fitted state with ci = 0.95. -/
theorem calculate_CDRC_roundtrip_w :
    ∃ table, (calculate_CDRC cFitted (.vFloat (95/100))).1 = .ok table ∧
      (calculate_CDRC ((calculate_CDRC cFitted (.vFloat (95/100))).2)
        (.vFloat (95/100))).1 = .ok table :=
  calculate_CDRC_roundtrip cFitted (95/100) (by norm_num) (by norm_num)

/-- C1 (the code evaluated at the failing input): with no GPS family specified
and family deviances normal = 120, lognormal = 95, gamma = 110, `fit` does
select the minimum-deviance model (the stored deviance is 95, the lognormal
one), but it stores `best_gps_family = "lognormal_gps_model"` — the internal
dict key of `_find_best_gps_model` — which is not one of the family names
'normal', 'lognormal', 'gamma' promised by the claim and by the attribute's
docstring. -/
theorem fit_best_gps_family_is_dict_key :
    (fit cEnv cFitter (initCDRC cCfg) cT cX cY).1 = .ok () ∧
    cFitted.best_gps_family = some (some "lognormal_gps_model") ∧
    cFitted.gps_deviance = some 95 ∧
    (["normal", "lognormal", "gamma"].contains "lognormal_gps_model") = false := by
  with_unfolding_all decide

/-- C6: the outcome GAM is fitted with the hardcoded solver iteration cap 500,
and the constructor's max_iter parameter is never read after construction: for
two configurations that agree on every field except max_iter, `_fit_gam` (and
hence the outcome model produced by a whole `fit` call) is identical. -/
theorem fit_gam_independent_of_max_iter (F : GamFitter) (env : GpsEnv)
    (cfg1 cfg2 : Config) (Tv gpsv yv : List ℚ)
    (T : Series) (X : List Series) (y : Series)
    (hf : cfg1.gps_family = cfg2.gps_family)
    (hg : cfg1.treatment_grid_num = cfg2.treatment_grid_num)
    (hs : cfg1.spline_order = cfg2.spline_order)
    (hn : cfg1.n_splines = cfg2.n_splines)
    (hl : cfg1.lambda_ = cfg2.lambda_)
    (hv : cfg1.verbose = cfg2.verbose) :
    _fit_gam F cfg1 Tv gpsv yv =
      F.fitGam cfg1.n_splines cfg1.spline_order 500 (Tv.zip gpsv) yv ∧
    _fit_gam F cfg1 Tv gpsv yv = _fit_gam F cfg2 Tv gpsv yv ∧
    (fit env F (initCDRC cfg1) T X y).2.gam_results =
      (fit env F (initCDRC cfg2) T X y).2.gam_results := by
  refine ⟨rfl, by rw [_fit_gam, _fit_gam, hs, hn], ?_⟩
  cases hval : _validate_fit_data T X y with
  | error e => simp [fit, hval, initCDRC]
  | ok u => simp [fit, hval, initCDRC, _fit_gam, hf, hs, hn]

/-- C6 witness: the statement at the concrete fitter, environment, fit data and
the two concrete configurations `cCfg` (max_iter = 100) and `cCfg2`
(max_iter = 1000), which differ only in max_iter. -/
theorem fit_gam_independent_of_max_iter_w :
    _fit_gam cFitter cCfg [2, 1, 3] [1, 1, 1] [5, 4, 6] =
      cFitter.fitGam cCfg.n_splines cCfg.spline_order 500
        (List.zip [2, 1, 3] [1, 1, 1]) [5, 4, 6] ∧
    _fit_gam cFitter cCfg [2, 1, 3] [1, 1, 1] [5, 4, 6] =
      _fit_gam cFitter cCfg2 [2, 1, 3] [1, 1, 1] [5, 4, 6] ∧
    (fit cEnv cFitter (initCDRC cCfg) cT cX cY).2.gam_results =
      (fit cEnv cFitter (initCDRC cCfg2) cT cX cY).2.gam_results :=
  fit_gam_independent_of_max_iter cFitter cEnv cCfg cCfg2 [2, 1, 3] [1, 1, 1]
    [5, 4, 6] cT cX cY rfl rfl rfl rfl rfl rfl

/-- Helper: if T is not float dtype, or some covariate column is non-numeric,
or y is not float dtype, then `_validate_fit_data` raises a TypeError. -/
theorem validate_fit_data_fails (T : Series) (X : List Series) (y : Series)
    (h : is_float_dtype T = false ∨ (∃ c ∈ X, is_numeric_dtype c = false) ∨
      is_float_dtype y = false) :
    ∃ msg, _validate_fit_data T X y = .error (.typeError msg) := by
  unfold _validate_fit_data
  by_cases hT : is_float_dtype T = false
  · exact ⟨"Treatment data must be of type float", by simp [hT]⟩
  · rw [Bool.not_eq_false] at hT
    by_cases hX : (X.find? (fun column => !(is_numeric_dtype column))).isSome = true
    · exact ⟨"All covariate (X) columns must be int or float type (i.e. must be numeric)",
        by simp [hT, hX]⟩
    · have hXall : ∀ c ∈ X, is_numeric_dtype c = true := by
        intro c hc
        by_contra hcn
        rw [Bool.not_eq_true] at hcn
        apply hX
        rw [List.find?_isSome]
        exact ⟨c, hc, by simp [hcn]⟩
      have hy : is_float_dtype y = false := by
        rcases h with h | ⟨c, hc, hcf⟩ | h
        · rw [h] at hT; cases hT
        · rw [hXall c hc] at hcf; cases hcf
        · exact h
      exact ⟨"Outcome data must be of type float", by simp [hT, hX, hy]⟩

/-- C8 (amended): when `fit` is called with T or y not floating-point or some
non-numeric covariate column, it raises a TypeError before any model fitting,
and afterwards the instance has T, X and y assigned while every derived
artifact (treatment grid, best family, GPS function, GPS deviance, GPS values,
GPS-at-grid matrix, outcome model, captured summary) is exactly what it was
before the call — in particular still absent on a freshly constructed
instance. -/
theorem fit_invalid_data_frame (env : GpsEnv) (F : GamFitter) (st : CDRCState)
    (T : Series) (X : List Series) (y : Series)
    (h : is_float_dtype T = false ∨ (∃ c ∈ X, is_numeric_dtype c = false) ∨
      is_float_dtype y = false) :
    (∃ msg, (fit env F st T X y).1 = .error (.typeError msg)) ∧
    (fit env F st T X y).2.T = some T ∧
    (fit env F st T X y).2.X = some X ∧
    (fit env F st T X y).2.y = some y ∧
    (fit env F st T X y).2.cfg = st.cfg ∧
    (fit env F st T X y).2.grid_values = st.grid_values ∧
    (fit env F st T X y).2.best_gps_family = st.best_gps_family ∧
    (fit env F st T X y).2.gps_function = st.gps_function ∧
    (fit env F st T X y).2.gps_deviance = st.gps_deviance ∧
    (fit env F st T X y).2.gps = st.gps ∧
    (fit env F st T X y).2.gam_results = st.gam_results ∧
    (fit env F st T X y).2.gam_summary_str = st.gam_summary_str ∧
    (fit env F st T X y).2.gps_at_grid = st.gps_at_grid ∧
    (fit env F st T X y).2.cdrc_preds = st.cdrc_preds := by
  obtain ⟨msg, hmsg⟩ := validate_fit_data_fails T X y h
  refine ⟨⟨msg, ?_⟩, ?_⟩ <;> simp [fit, hmsg]

/-- C8 witness: a failing `fit` call (integer-dtype treatment) on a freshly
constructed instance leaves T, X, y assigned and every derived artifact equal
to its initial value, i.e. absent. -/
theorem fit_invalid_data_frame_w :
    (∃ msg, (fit cEnv cFitter (initCDRC cCfg) cTbad cX cY).1 =
      .error (.typeError msg)) ∧
    (fit cEnv cFitter (initCDRC cCfg) cTbad cX cY).2.T = some cTbad ∧
    (fit cEnv cFitter (initCDRC cCfg) cTbad cX cY).2.X = some cX ∧
    (fit cEnv cFitter (initCDRC cCfg) cTbad cX cY).2.y = some cY ∧
    (fit cEnv cFitter (initCDRC cCfg) cTbad cX cY).2.cfg = (initCDRC cCfg).cfg ∧
    (fit cEnv cFitter (initCDRC cCfg) cTbad cX cY).2.grid_values =
      (initCDRC cCfg).grid_values ∧
    (fit cEnv cFitter (initCDRC cCfg) cTbad cX cY).2.best_gps_family =
      (initCDRC cCfg).best_gps_family ∧
    (fit cEnv cFitter (initCDRC cCfg) cTbad cX cY).2.gps_function =
      (initCDRC cCfg).gps_function ∧
    (fit cEnv cFitter (initCDRC cCfg) cTbad cX cY).2.gps_deviance =
      (initCDRC cCfg).gps_deviance ∧
    (fit cEnv cFitter (initCDRC cCfg) cTbad cX cY).2.gps = (initCDRC cCfg).gps ∧
    (fit cEnv cFitter (initCDRC cCfg) cTbad cX cY).2.gam_results =
      (initCDRC cCfg).gam_results ∧
    (fit cEnv cFitter (initCDRC cCfg) cTbad cX cY).2.gam_summary_str =
      (initCDRC cCfg).gam_summary_str ∧
    (fit cEnv cFitter (initCDRC cCfg) cTbad cX cY).2.gps_at_grid =
      (initCDRC cCfg).gps_at_grid ∧
    (fit cEnv cFitter (initCDRC cCfg) cTbad cX cY).2.cdrc_preds =
      (initCDRC cCfg).cdrc_preds :=
  fit_invalid_data_frame cEnv cFitter (initCDRC cCfg) cTbad cX cY
    (Or.inl (by decide))

/-- C8 counterexample: the claim's "afterwards ... none of the derived
artifacts set" is false in general — a failing `fit` call on an
already-fitted instance raises the type error but leaves the previously
derived artifacts (e.g. the treatment grid and the outcome model) still
set. -/
theorem fit_invalid_data_cex :
    (fit cEnv cFitter cFitted cTbad cX cY).1 =
      .error (.typeError "Treatment data must be of type float") ∧
    (fit cEnv cFitter cFitted cTbad cX cY).2.grid_values ≠ none ∧
    (fit cEnv cFitter cFitted cTbad cX cY).2.gps_at_grid ≠ none := by
  refine ⟨by with_unfolding_all decide, ?_, ?_⟩
  · show (fit cEnv cFitter cFitted cTbad cX cY).2.grid_values ≠ none
    with_unfolding_all decide
  · with_unfolding_all decide

/-- Helper: `List.getD` inside the bounds is `getElem`. -/
theorem getD_lt {α : Type} (l : List α) (d : α) {n : ℕ} (h : n < l.length) :
    l.getD n d = l[n] := by
  rw [List.getD_eq_getElem?_getD, List.getElem?_eq_getElem h, Option.getD_some]

/-- Helper: `roundHalfEven` of an integer is that integer. -/
theorem roundHalfEven_intCast (z : ℤ) : roundHalfEven (z : ℚ) = z := by
  unfold roundHalfEven
  norm_num [Int.floor_intCast]

/-- Helper: `np_round3` is idempotent — its image is exactly the 3-decimal
rationals. -/
theorem np_round3_idem (x : ℚ) : np_round3 (np_round3 x) = np_round3 x := by
  have hc : ((roundHalfEven (x * 1000) : ℚ) / 1000) * 1000 =
      (roundHalfEven (x * 1000) : ℚ) := div_mul_cancel₀ _ (by norm_num)
  rw [np_round3, np_round3, hc, roundHalfEven_intCast]

/-- Helper: `roundHalfEven` lies between the floor and the floor plus one. -/
theorem roundHalfEven_bounds (x : ℚ) :
    ⌊x⌋ ≤ roundHalfEven x ∧ roundHalfEven x ≤ ⌊x⌋ + 1 := by
  unfold roundHalfEven
  dsimp only
  split_ifs <;> omega

/-- Helper: `roundHalfEven` is monotone. -/
theorem roundHalfEven_mono {x y : ℚ} (h : x ≤ y) :
    roundHalfEven x ≤ roundHalfEven y := by
  have hf : ⌊x⌋ ≤ ⌊y⌋ := Int.floor_le_floor h
  rcases lt_or_eq_of_le hf with hlt | heq
  · calc roundHalfEven x ≤ ⌊x⌋ + 1 := (roundHalfEven_bounds x).2
      _ ≤ ⌊y⌋ := hlt
      _ ≤ roundHalfEven y := (roundHalfEven_bounds y).1
  · have hx1 : (⌊x⌋ : ℚ) ≤ x := Int.floor_le x
    have hy2 : y < ⌊y⌋ + 1 := Int.lt_floor_add_one y
    unfold roundHalfEven
    dsimp only
    rw [← heq]
    have hxy2 : y - (⌊x⌋ : ℚ) ≥ x - (⌊x⌋ : ℚ) := by linarith
    split_ifs <;> first | omega | linarith

/-- Helper: `np_round3` is monotone. -/
theorem np_round3_mono {x y : ℚ} (h : x ≤ y) : np_round3 x ≤ np_round3 y := by
  have h1 : roundHalfEven (x * 1000) ≤ roundHalfEven (y * 1000) :=
    roundHalfEven_mono (by linarith)
  have h2 : ((roundHalfEven (x * 1000) : ℚ)) ≤ (roundHalfEven (y * 1000) : ℚ) := by
    exact_mod_cast h1
  unfold np_round3
  rw [div_le_div_iff_of_pos_right (by norm_num : (0 : ℚ) < 1000)]
  exact h2

/-- Helper: the mean is monotone under a pointwise bound. -/
theorem npMean_le_npMean {α : Type} (l : List α) (f g : α → ℚ)
    (h : ∀ x ∈ l, f x ≤ g x) : npMean (l.map f) ≤ npMean (l.map g) := by
  unfold npMean
  simp only [List.length_map]
  rcases Nat.eq_zero_or_pos l.length with h0 | hpos
  · rw [List.eq_nil_of_length_eq_zero h0]
    simp
  · have hc : (0 : ℚ) < l.length := by exact_mod_cast hpos
    rw [div_le_div_iff_of_pos_right hc]
    exact List.sum_le_sum h

/-- C4 (amended): not every value in the returned table is rounded to 3
decimal places.  Instead: every entry of the per-observation predictions
tensor is rounded to 3 decimals (`np_round3` fixes every entry), and the
table's CDRC/Lower_CI/Upper_CI columns are the plain, not re-rounded, means of
those rounded entries, while the Treatment column is the unrounded grid
value. -/
theorem cdrc_table_rounding (st : CDRCState) (q : ℚ) (h0 : 0 < q) (h1 : q < 1) :
    (∀ col ∈ _cdrc_predictions st q, ∀ e ∈ col,
      np_round3 e.1 = e.1 ∧ np_round3 e.2.1 = e.2.1 ∧ np_round3 e.2.2 = e.2.2) ∧
    (calculate_CDRC st (.vFloat q)).1 =
      .ok ((List.range st.cfg.treatment_grid_num).map (fun i =>
        ((st.grid_values.getD []).getD i 0,
         npMean (((_cdrc_predictions st q).getD i []).map (fun e => e.1)),
         npMean (((_cdrc_predictions st q).getD i []).map (fun e => e.2.1)),
         npMean (((_cdrc_predictions st q).getD i []).map (fun e => e.2.2))))) := by
  constructor
  · intro col hcol e he
    unfold _cdrc_predictions at hcol
    simp only [List.mem_map] at hcol
    obtain ⟨i, _, rfl⟩ := hcol
    simp only [List.mem_map] at he
    obtain ⟨pr, _, rfl⟩ := he
    exact ⟨np_round3_idem _, np_round3_idem _, np_round3_idem _⟩
  · rw [calculate_CDRC_ok st h0 h1]

/-- C4 witness: the amended statement at the concrete fitted state with
ci = 0.95. -/
theorem cdrc_table_rounding_w :
    (∀ col ∈ _cdrc_predictions cFitted (95/100), ∀ e ∈ col,
      np_round3 e.1 = e.1 ∧ np_round3 e.2.1 = e.2.1 ∧ np_round3 e.2.2 = e.2.2) ∧
    (calculate_CDRC cFitted (.vFloat (95/100))).1 =
      .ok ((List.range cFitted.cfg.treatment_grid_num).map (fun i =>
        ((cFitted.grid_values.getD []).getD i 0,
         npMean (((_cdrc_predictions cFitted (95/100)).getD i []).map (fun e => e.1)),
         npMean (((_cdrc_predictions cFitted (95/100)).getD i []).map (fun e => e.2.1)),
         npMean (((_cdrc_predictions cFitted (95/100)).getD i []).map (fun e => e.2.2))))) :=
  cdrc_table_rounding cFitted (95/100) (by norm_num) (by norm_num)

/-- C4 counterexample: on the concretely fitted model the returned table
contains a value that differs from its own 3-decimal rounding — the Treatment
column holds the raw quantile 11/9 = 1.2222..., which the code never rounds —
so "every value reported in the table is rounded to 3 decimal places" is
false. -/
theorem cdrc_table_not_all_rounded_cex :
    ¬ (∀ row ∈ (calculate_CDRC cFitted (.vFloat (95/100))).1.toOption.getD [],
        np_round3 row.1 = row.1 ∧ np_round3 row.2.1 = row.2.1 ∧
        np_round3 row.2.2.1 = row.2.2.1 ∧ np_round3 row.2.2.2 = row.2.2.2) := by
  with_unfolding_all decide

/-- Helper: if the GAM's prediction intervals bracket its point predictions
(per observation), then every entry of the predictions tensor satisfies
lower ≤ point ≤ upper (np.round is monotone, so rounding preserves this). -/
theorem cdrc_preds_bracket (st : CDRCState) (q : ℚ) (gam : GamModel)
    (hgam : st.gam_results = some gam)
    (hp : ∀ rows, (gam.predict rows).length = rows.length)
    (hintl : ∀ rows w, (gam.prediction_intervals rows w).length = rows.length)
    (hbr : ∀ rows w k, k < rows.length →
      ((gam.prediction_intervals rows w).getD k (0, 0)).1 ≤ (gam.predict rows).getD k 0 ∧
      (gam.predict rows).getD k 0 ≤ ((gam.prediction_intervals rows w).getD k (0, 0)).2) :
    ∀ col ∈ _cdrc_predictions st q, ∀ e ∈ col, e.2.1 ≤ e.1 ∧ e.1 ≤ e.2.2 := by
  have key : ∀ rows : List (ℚ × ℚ),
      ∀ e ∈ ((gam.predict rows).zip (gam.prediction_intervals rows q)).map
        (fun pr => (np_round3 pr.1, np_round3 pr.2.1, np_round3 pr.2.2)),
      e.2.1 ≤ e.1 ∧ e.1 ≤ e.2.2 := by
    intro rows e he
    simp only [List.mem_map] at he
    obtain ⟨pr, hpr, rfl⟩ := he
    rw [List.mem_iff_getElem] at hpr
    obtain ⟨k, hk, hprk⟩ := hpr
    rw [List.length_zip, lt_min_iff, hp, hintl] at hk
    rw [List.getElem_zip] at hprk
    have hb1 : k < (gam.prediction_intervals rows q).length := by
      rw [hintl]; exact hk.1
    have hb2 : k < (gam.predict rows).length := by
      rw [hp]; exact hk.1
    have e1 : (gam.prediction_intervals rows q).getD k (0, 0) =
        (gam.prediction_intervals rows q)[k] := getD_lt _ _ hb1
    have e2 : (gam.predict rows).getD k 0 = (gam.predict rows)[k] := getD_lt _ _ hb2
    have hbrk := hbr rows q k hk.1
    rw [e1, e2] at hbrk
    subst hprk
    exact ⟨np_round3_mono hbrk.1, np_round3_mono hbrk.2⟩
  intro col hcol e he
  have hdg : st.gamOrDefault = gam := by
    rw [CDRCState.gamOrDefault, hgam, Option.getD_some]
  unfold _cdrc_predictions at hcol
  rw [hdg] at hcol
  simp only [List.mem_map] at hcol
  obtain ⟨i, _, rfl⟩ := hcol
  exact key _ e he

/-- C2: for every fitted model — stored grid of the configured length and a GAM
whose prediction intervals bracket its point predictions and have one entry per
query row — and every valid ci, `calculate_CDRC` returns a table with exactly
treatment_grid_num rows in grid order, Treatment column equal to the stored
grid, CDRC / Lower_CI / Upper_CI equal at each grid index to the mean over all
observations of the per-observation point estimate / lower bound / upper bound
at that grid column of the predictions tensor, and Lower_CI ≤ CDRC ≤ Upper_CI
in every row. -/
theorem calculate_CDRC_table_shape (st : CDRCState) (q : ℚ) (gam : GamModel)
    (g : List ℚ) (h0 : 0 < q) (h1 : q < 1)
    (hgam : st.gam_results = some gam)
    (hgrid : st.grid_values = some g)
    (hglen : g.length = st.cfg.treatment_grid_num)
    (hp : ∀ rows, (gam.predict rows).length = rows.length)
    (hintl : ∀ rows w, (gam.prediction_intervals rows w).length = rows.length)
    (hbr : ∀ rows w k, k < rows.length →
      ((gam.prediction_intervals rows w).getD k (0, 0)).1 ≤ (gam.predict rows).getD k 0 ∧
      (gam.predict rows).getD k 0 ≤ ((gam.prediction_intervals rows w).getD k (0, 0)).2) :
    ∃ table, (calculate_CDRC st (.vFloat q)).1 = .ok table ∧
      table.length = st.cfg.treatment_grid_num ∧
      table.map (fun r => r.1) = g ∧
      (∀ i, i < st.cfg.treatment_grid_num →
        table.getD i (0, 0, 0, 0) =
          (g.getD i 0,
           npMean (((_cdrc_predictions st q).getD i []).map (fun e => e.1)),
           npMean (((_cdrc_predictions st q).getD i []).map (fun e => e.2.1)),
           npMean (((_cdrc_predictions st q).getD i []).map (fun e => e.2.2)))) ∧
      (∀ row ∈ table, row.2.2.1 ≤ row.2.1 ∧ row.2.1 ≤ row.2.2.2) := by
  refine ⟨(List.range st.cfg.treatment_grid_num).map (fun i =>
      ((st.grid_values.getD []).getD i 0,
       npMean (((_cdrc_predictions st q).getD i []).map (fun e => e.1)),
       npMean (((_cdrc_predictions st q).getD i []).map (fun e => e.2.1)),
       npMean (((_cdrc_predictions st q).getD i []).map (fun e => e.2.2)))),
    by rw [calculate_CDRC_ok st h0 h1], by simp, ?_, ?_, ?_⟩
  · apply List.ext_getElem
    · simp [← hglen]
    · intro i hi1 hi2
      simp only [List.getElem_map, List.getElem_range, hgrid, Option.getD_some]
      rw [getD_lt _ _ hi2]
  · intro i hi
    rw [getD_lt _ _ (by simpa using hi), List.getElem_map, List.getElem_range,
      hgrid, Option.getD_some]
  · intro row hrow
    simp only [List.mem_map, List.mem_range] at hrow
    obtain ⟨i, hi, rfl⟩ := hrow
    have hcol : (_cdrc_predictions st q).getD i [] ∈ _cdrc_predictions st q := by
      have hlen : i < (_cdrc_predictions st q).length := by
        unfold _cdrc_predictions
        simpa using hi
      rw [getD_lt _ _ hlen]
      exact List.getElem_mem hlen
    have hbrall := cdrc_preds_bracket st q gam hgam hp hintl hbr
      ((_cdrc_predictions st q).getD i []) hcol
    dsimp only
    constructor
    · exact npMean_le_npMean ((_cdrc_predictions st q).getD i [])
        (fun e => e.2.1) (fun e => e.1) (fun x hx => (hbrall x hx).1)
    · exact npMean_le_npMean ((_cdrc_predictions st q).getD i [])
        (fun e => e.1) (fun e => e.2.2) (fun x hx => (hbrall x hx).2)

/-- C2 witness: the statement at the concrete fitted state (grid of length 10,
GAM `cGam` whose intervals [t-1, t+2] bracket its point prediction t) with
ci = 0.95. -/
theorem calculate_CDRC_table_shape_w :
    ∃ table, (calculate_CDRC cFitted (.vFloat (95/100))).1 = .ok table ∧
      table.length = cFitted.cfg.treatment_grid_num ∧
      table.map (fun r => r.1) = _grid_values [2, 1, 3] 10 ∧
      (∀ i, i < cFitted.cfg.treatment_grid_num →
        table.getD i (0, 0, 0, 0) =
          ((_grid_values [2, 1, 3] 10).getD i 0,
           npMean (((_cdrc_predictions cFitted (95/100)).getD i []).map (fun e => e.1)),
           npMean (((_cdrc_predictions cFitted (95/100)).getD i []).map (fun e => e.2.1)),
           npMean (((_cdrc_predictions cFitted (95/100)).getD i []).map (fun e => e.2.2)))) ∧
      (∀ row ∈ table, row.2.2.1 ≤ row.2.1 ∧ row.2.1 ≤ row.2.2.2) :=
  calculate_CDRC_table_shape cFitted (95/100) cGam (_grid_values [2, 1, 3] 10)
    (by norm_num) (by norm_num)
    rfl
    rfl
    (by decide)
    (fun rows => by simp [cGam])
    (fun rows w => by simp [cGam])
    (fun rows w k hk => by
      have h1 : k < (rows.map (fun r : ℚ × ℚ => (r.1 - 1, r.1 + 2))).length := by
        simpa using hk
      have h2 : k < (rows.map (fun r : ℚ × ℚ => r.1)).length := by simpa using hk
      simp only [cGam]
      rw [getD_lt _ _ h1, getD_lt _ _ h2, List.getElem_map, List.getElem_map]
      exact ⟨by dsimp only; linarith, by dsimp only; linarith⟩)

/-- Helper: `List.getD` beyond the length is the default. -/
theorem getD_len_le {α : Type} (l : List α) (d : α) {n : ℕ} (h : l.length ≤ n) :
    l.getD n d = d := by
  rw [List.getD_eq_getElem?_getD, List.getElem?_eq_none h, Option.getD_none]

/-- Helper: in a sorted list, an earlier entry is at most a later in-range
entry. -/
theorem sorted_getD_mono {s : List ℚ} (hs : List.Sorted (fun a b => a ≤ b) s) {a b : ℕ}
    (hab : a ≤ b) (hb : b < s.length) : s.getD a 0 ≤ s.getD b 0 := by
  have ha : a < s.length := lt_of_le_of_lt hab hb
  rw [getD_lt _ _ ha, getD_lt _ _ hb]
  rcases eq_or_lt_of_le hab with rfl | hlt
  · exact le_refl _
  · have := hs.rel_get_of_lt (a := ⟨a, ha⟩) (b := ⟨b, hb⟩) (Fin.mk_lt_mk.mpr hlt)
    simpa using this

/-- Helper: the upper interpolation anchor of `qinterp` is at least the lower
one (inside the range the list is sorted; outside, the default equals the lower
anchor). -/
theorem getD_succ_ge {s : List ℚ} (hs : List.Sorted (fun a b => a ≤ b) s) {i : ℕ}
    (hi : i < s.length) : s.getD i 0 ≤ s.getD (i + 1) (s.getD i 0) := by
  by_cases h : i + 1 < s.length
  · rw [getD_lt _ _ h, getD_lt _ _ hi]
    have := hs.rel_get_of_lt (a := ⟨i, hi⟩) (b := ⟨i + 1, h⟩)
      (Fin.mk_lt_mk.mpr (Nat.lt_succ_self i))
    simpa using this
  · rw [getD_len_le s (s.getD i 0) (n := i + 1) (Nat.le_of_not_lt h)]

/-- Helper: `qinterp` at probability 0 is the first element of the sorted
data. -/
theorem qinterp_zero (s : List ℚ) : qinterp s 0 = s.getD 0 0 := by
  simp [qinterp]

/-- Helper: `qinterp` at probability 1 is the last element of the sorted
data. -/
theorem qinterp_one {s : List ℚ} (hn : s.length ≠ 0) :
    qinterp s 1 = s.getD (s.length - 1) 0 := by
  have h1 : 1 ≤ s.length := Nat.one_le_iff_ne_zero.mpr hn
  have hfl : ⌊(1 : ℚ) * ((s.length : ℚ) - 1)⌋ = (s.length : ℤ) - 1 := by
    rw [one_mul,
      show ((s.length : ℚ) - 1) = (((s.length : ℤ) - 1 : ℤ) : ℚ) by push_cast; ring]
    exact Int.floor_intCast _
  have htn : (⌊(1 : ℚ) * ((s.length : ℚ) - 1)⌋).toNat = s.length - 1 := by
    rw [hfl]; omega
  have hc : ((s.length - 1 : ℕ) : ℚ) = (s.length : ℚ) - 1 := by
    rw [Nat.cast_sub h1, Nat.cast_one]
  simp only [qinterp]
  rw [htn, hc, one_mul, sub_self, zero_mul, add_zero]

/-- Helper: `qinterp` is monotone in the probability on [0, 1], for sorted
data. -/
theorem qinterp_mono {s : List ℚ} (hs : List.Sorted (fun a b => a ≤ b) s)
    {p q : ℚ} (hp0 : 0 ≤ p) (hpq : p ≤ q) (hq1 : q ≤ 1) :
    qinterp s p ≤ qinterp s q := by
  rcases Nat.eq_zero_or_pos s.length with hn0 | hn1
  · obtain rfl := List.length_eq_zero.mp hn0
    simp [qinterp]
  have hq0 : 0 ≤ q := le_trans hp0 hpq
  have hmQ : (1 : ℚ) ≤ (s.length : ℚ) := by exact_mod_cast hn1
  have hm0 : (0 : ℚ) ≤ (s.length : ℚ) - 1 := by linarith
  have hp'0 : 0 ≤ p * ((s.length : ℚ) - 1) := mul_nonneg hp0 hm0
  have hpq' : p * ((s.length : ℚ) - 1) ≤ q * ((s.length : ℚ) - 1) :=
    mul_le_mul_of_nonneg_right hpq hm0
  have hq'1 : q * ((s.length : ℚ) - 1) ≤ (s.length : ℚ) - 1 := by
    calc q * ((s.length : ℚ) - 1) ≤ 1 * ((s.length : ℚ) - 1) :=
          mul_le_mul_of_nonneg_right hq1 hm0
      _ = (s.length : ℚ) - 1 := one_mul _
  have hfp0 : 0 ≤ ⌊p * ((s.length : ℚ) - 1)⌋ := Int.floor_nonneg.mpr hp'0
  have hfq0 : 0 ≤ ⌊q * ((s.length : ℚ) - 1)⌋ := Int.floor_nonneg.mpr (le_trans hp'0 hpq')
  have hfpq : ⌊p * ((s.length : ℚ) - 1)⌋ ≤ ⌊q * ((s.length : ℚ) - 1)⌋ :=
    Int.floor_le_floor hpq'
  have hfq_le : ⌊q * ((s.length : ℚ) - 1)⌋ ≤ (s.length : ℤ) - 1 := by
    calc ⌊q * ((s.length : ℚ) - 1)⌋ ≤ ⌊((s.length : ℚ) - 1)⌋ := Int.floor_le_floor hq'1
      _ = (s.length : ℤ) - 1 := by
          rw [show ((s.length : ℚ) - 1) = (((s.length : ℤ) - 1 : ℤ) : ℚ) by push_cast; ring]
          exact Int.floor_intCast _
  simp only [qinterp]
  set i := (⌊p * ((s.length : ℚ) - 1)⌋).toNat with hidef
  set j := (⌊q * ((s.length : ℚ) - 1)⌋).toNat with hjdef
  have hiZ : ((i : ℤ)) = ⌊p * ((s.length : ℚ) - 1)⌋ := Int.toNat_of_nonneg hfp0
  have hjZ : ((j : ℤ)) = ⌊q * ((s.length : ℚ) - 1)⌋ := Int.toNat_of_nonneg hfq0
  have hiQ : ((i : ℚ)) = ((⌊p * ((s.length : ℚ) - 1)⌋ : ℤ) : ℚ) := by exact_mod_cast hiZ
  have hjQ : ((j : ℚ)) = ((⌊q * ((s.length : ℚ) - 1)⌋ : ℤ) : ℚ) := by exact_mod_cast hjZ
  have hplow : ((i : ℚ)) ≤ p * ((s.length : ℚ) - 1) := by
    rw [hiQ]; exact Int.floor_le _
  have hphigh : p * ((s.length : ℚ) - 1) < (i : ℚ) + 1 := by
    rw [hiQ]; exact Int.lt_floor_add_one _
  have hqlow : ((j : ℚ)) ≤ q * ((s.length : ℚ) - 1) := by
    rw [hjQ]; exact Int.floor_le _
  have hij : i ≤ j := by omega
  have hjn : j < s.length := by omega
  have hin : i < s.length := lt_of_le_of_lt hij hjn
  have hdi : (0 : ℚ) ≤ s.getD (i + 1) (s.getD i 0) - s.getD i 0 :=
    sub_nonneg.mpr (getD_succ_ge hs hin)
  have hdj : (0 : ℚ) ≤ s.getD (j + 1) (s.getD j 0) - s.getD j 0 :=
    sub_nonneg.mpr (getD_succ_ge hs hjn)
  rcases eq_or_lt_of_le hij with heq | hlt
  · -- same interpolation segment
    rw [← heq]
    have hmul : (p * ((s.length : ℚ) - 1) - (i : ℚ)) *
          (s.getD (i + 1) (s.getD i 0) - s.getD i 0) ≤
        (q * ((s.length : ℚ) - 1) - (i : ℚ)) *
          (s.getD (i + 1) (s.getD i 0) - s.getD i 0) :=
      mul_le_mul_of_nonneg_right (by linarith) hdi
    linarith
  · -- p lies in an earlier segment than q
    have hi1n : i + 1 < s.length := by omega
    have h1 : s.getD i 0 + (p * ((s.length : ℚ) - 1) - (i : ℚ)) *
          (s.getD (i + 1) (s.getD i 0) - s.getD i 0) ≤ s.getD (i + 1) (s.getD i 0) := by
      have := mul_le_of_le_one_left hdi (by linarith :
        p * ((s.length : ℚ) - 1) - (i : ℚ) ≤ 1)
      linarith
    have h2 : s.getD (i + 1) (s.getD i 0) ≤ s.getD j 0 := by
      rw [getD_lt _ _ hi1n]
      rw [← getD_lt s (0 : ℚ) hi1n]
      exact sorted_getD_mono hs (by omega) hjn
    have h3 : s.getD j 0 ≤ s.getD j 0 + (q * ((s.length : ℚ) - 1) - (j : ℚ)) *
          (s.getD (j + 1) (s.getD j 0) - s.getD j 0) :=
      le_add_of_nonneg_right (mul_nonneg (by linarith) hdj)
    linarith

/-- Helper: `np_quantile1` is monotone in the probability on [0, 1]. -/
theorem np_quantile1_mono (ts : List ℚ) {p q : ℚ}
    (hp0 : 0 ≤ p) (hpq : p ≤ q) (hq1 : q ≤ 1) :
    np_quantile1 ts p ≤ np_quantile1 ts q :=
  qinterp_mono (List.sorted_insertionSort _ ts) hp0 hpq hq1

/-- Helper: the 0-quantile is the minimum of the data. -/
theorem np_quantile1_min (ts : List ℚ) (h : ts ≠ []) :
    np_quantile1 ts 0 ∈ ts ∧ ∀ x ∈ ts, np_quantile1 ts 0 ≤ x := by
  have hs := List.sorted_insertionSort (fun a b : ℚ => a ≤ b) ts
  have hperm := List.perm_insertionSort (fun a b : ℚ => a ≤ b) ts
  have hne : 0 < (List.insertionSort (fun a b : ℚ => a ≤ b) ts).length := by
    rw [List.length_insertionSort]
    exact List.length_pos.mpr h
  rw [np_quantile1, qinterp_zero]
  constructor
  · rw [getD_lt _ _ hne]
    exact hperm.mem_iff.mp (List.getElem_mem hne)
  · intro x hx
    have hxs : x ∈ List.insertionSort (fun a b : ℚ => a ≤ b) ts := hperm.mem_iff.mpr hx
    rw [List.mem_iff_getElem] at hxs
    obtain ⟨k, hk, rfl⟩ := hxs
    have hmono := sorted_getD_mono hs (Nat.zero_le k) hk
    rwa [getD_lt _ _ hk] at hmono

/-- Helper: the 1-quantile is the maximum of the data. -/
theorem np_quantile1_max (ts : List ℚ) (h : ts ≠ []) :
    np_quantile1 ts 1 ∈ ts ∧ ∀ x ∈ ts, x ≤ np_quantile1 ts 1 := by
  have hs := List.sorted_insertionSort (fun a b : ℚ => a ≤ b) ts
  have hperm := List.perm_insertionSort (fun a b : ℚ => a ≤ b) ts
  have hne : (List.insertionSort (fun a b : ℚ => a ≤ b) ts).length ≠ 0 := by
    rw [List.length_insertionSort]
    exact fun h0 => h (List.length_eq_zero.mp h0)
  have hlt : (List.insertionSort (fun a b : ℚ => a ≤ b) ts).length - 1 <
      (List.insertionSort (fun a b : ℚ => a ≤ b) ts).length := by omega
  rw [np_quantile1, qinterp_one hne]
  constructor
  · rw [getD_lt _ _ hlt]
    exact hperm.mem_iff.mp (List.getElem_mem hlt)
  · intro x hx
    have hxs : x ∈ List.insertionSort (fun a b : ℚ => a ≤ b) ts := hperm.mem_iff.mpr hx
    rw [List.mem_iff_getElem] at hxs
    obtain ⟨k, hk, rfl⟩ := hxs
    have hmono := sorted_getD_mono hs (by omega :
      k ≤ (List.insertionSort (fun a b : ℚ => a ≤ b) ts).length - 1) hlt
    rwa [getD_lt _ _ hk] at hmono

/-- Helper: the k-th linspace probability level. -/
theorem np_linspace01_getElem? (n k : ℕ) (hk : k < n) :
    (np_linspace01 n)[k]? = some ((k : ℚ) / ((n : ℚ) - 1)) := by
  rw [np_linspace01, List.getElem?_map, List.getElem?_range hk]
  rfl

/-- Helper: the k-th grid value is the quantile at level k/(n-1). -/
theorem grid_values_getElem? (T : List ℚ) (n k : ℕ) (hk : k < n) :
    (_grid_values T n)[k]? = some (np_quantile1 T ((k : ℚ) / ((n : ℚ) - 1))) := by
  rw [_grid_values, List.getElem?_map, np_linspace01_getElem? n k hk]
  rfl

/-- C3: for every non-empty treatment sequence T and every treatment_grid_num n
accepted by the constructor (10 ≤ n < 1000), the grid built by `_grid_values`
has length n, is non-decreasing, equals at each index k the empirical quantile
of T at the equally spaced probability level k/(n-1) (levels covering 0 and 1
inclusive), and its first and last elements are the observed minimum and
maximum of T. -/
theorem grid_values_spec (T : List ℚ) (n : ℕ) (hT : T ≠ [])
    (hn : 10 ≤ n) (hn' : n < 1000) :
    (_grid_values T n).length = n ∧
    List.Sorted (fun a b => a ≤ b) (_grid_values T n) ∧
    (∀ k, k < n → (_grid_values T n).getD k 0 =
      np_quantile1 T ((k : ℚ) / ((n : ℚ) - 1))) ∧
    (∃ a, (_grid_values T n).head? = some a ∧ a ∈ T ∧ ∀ x ∈ T, a ≤ x) ∧
    (∃ b, (_grid_values T n).getLast? = some b ∧ b ∈ T ∧ ∀ x ∈ T, x ≤ b) := by
  have hlen : (_grid_values T n).length = n := by
    rw [_grid_values, List.length_map, np_linspace01, List.length_map, List.length_range]
  have hden : (0 : ℚ) < (n : ℚ) - 1 := by
    have h10 : (10 : ℚ) ≤ (n : ℚ) := by exact_mod_cast hn
    linarith
  have hval : ∀ k, k < n → (_grid_values T n).getD k 0 =
      np_quantile1 T ((k : ℚ) / ((n : ℚ) - 1)) := by
    intro k hk
    rw [List.getD_eq_getElem?_getD, grid_values_getElem? T n k hk, Option.getD_some]
  refine ⟨hlen, ?_, hval, ?_, ?_⟩
  · -- the grid is non-decreasing
    rw [List.Sorted, List.pairwise_iff_getElem]
    intro i j hi hj hij
    have hi2 : i < n := by rwa [hlen] at hi
    have hj2 : j < n := by rwa [hlen] at hj
    have gi : (_grid_values T n)[i] =
        np_quantile1 T ((i : ℚ) / ((n : ℚ) - 1)) := by
      have h2 := hval i hi2
      rwa [getD_lt _ _ hi] at h2
    have gj : (_grid_values T n)[j] =
        np_quantile1 T ((j : ℚ) / ((n : ℚ) - 1)) := by
      have h2 := hval j hj2
      rwa [getD_lt _ _ hj] at h2
    rw [gi, gj]
    apply np_quantile1_mono
    · exact div_nonneg (Nat.cast_nonneg i) hden.le
    · rw [div_le_div_iff_of_pos_right hden]
      exact_mod_cast Nat.le_of_lt hij
    · rw [div_le_one hden]
      have hj1 : (j : ℚ) ≤ ((n - 1 : ℕ) : ℚ) := by exact_mod_cast (by omega : j ≤ n - 1)
      rwa [Nat.cast_sub (by omega), Nat.cast_one] at hj1
  · -- first element = min T
    obtain ⟨hmem, hmin⟩ := np_quantile1_min T hT
    refine ⟨np_quantile1 T 0, ?_, hmem, hmin⟩
    rw [List.head?_eq_getElem?, grid_values_getElem? T n 0 (by omega)]
    norm_num
  · -- last element = max T
    obtain ⟨hmem, hmax⟩ := np_quantile1_max T hT
    refine ⟨np_quantile1 T 1, ?_, hmem, hmax⟩
    rw [List.getLast?_eq_getElem?, hlen, grid_values_getElem? T n (n - 1) (by omega)]
    have hc : ((n - 1 : ℕ) : ℚ) = (n : ℚ) - 1 := by
      rw [Nat.cast_sub (by omega), Nat.cast_one]
    rw [hc, div_self (ne_of_gt hden)]



/-- C3 witness: the grid specification at T = [2, 1, 3] and
treatment_grid_num = 10. -/
theorem grid_values_spec_w :
    (_grid_values [2, 1, 3] 10).length = 10 ∧
    List.Sorted (fun a b => a ≤ b) (_grid_values [2, 1, 3] 10) ∧
    (∀ k, k < 10 → (_grid_values [2, 1, 3] 10).getD k 0 =
      np_quantile1 [2, 1, 3] ((k : ℚ) / (((10 : ℕ) : ℚ) - 1))) ∧
    (∃ a, (_grid_values [2, 1, 3] 10).head? = some a ∧ a ∈ ([2, 1, 3] : List ℚ) ∧
      ∀ x ∈ ([2, 1, 3] : List ℚ), a ≤ x) ∧
    (∃ b, (_grid_values [2, 1, 3] 10).getLast? = some b ∧ b ∈ ([2, 1, 3] : List ℚ) ∧
      ∀ x ∈ ([2, 1, 3] : List ℚ), x ≤ b) :=
  grid_values_spec [2, 1, 3] 10 (by decide) (by decide) (by decide)

end CausalCurve
